import Mathlib

/-!
# Verification of the IOKB document ingestion and retrieval pipeline

This file gives a shallow embedding, in Lean 4, of the core of the IOKB
knowledge-base platform: the text splitter (`app/core/rag/splitter.py`),
the Elasticsearch retriever (`app/core/rag/retriever.py`), the RAG
question-answering service (`app/core/rag/qa.py`), the ingestion
orchestrator (`app/services/document_processor.py`) and the document
management endpoints (`app/api/knowledge.py`).

Python strings are modelled as `List Char` (Python `len` counts code
points, as does `List.length` on `List Char`), Python ints as `Nat`/`Int`,
relevance scores (Python floats used only for comparisons and ranking
arithmetic) as `ℚ`, and fallible operations as `Except`.  Network
collaborators (embedding provider, Elasticsearch, the LLM) enter as
explicit outcome parameters, so each orchestrator is a pure function of
its collaborator outcomes.
-/

namespace IOKB

/-! ## Splitter (`app/core/rag/splitter.py`)

`RecursiveTextSplitter` with the default separator hierarchy.  All
functions below are written with structural recursion (a skip counter or
an explicit fuel argument standing for the Python slice arithmetic) so
that they evaluate inside the kernel.
-/

/-- Worker for `py_split`.  Scans the text one character at a time;
`skip` counts separator characters still to be consumed after a match,
`cur` is the current field accumulated in reverse. -/
def py_split_go (sep : List Char) : List Char → Nat → List Char → List (List Char)
  | [], _, cur => [cur.reverse]
  | _ :: xs, Nat.succ skip, cur => py_split_go sep xs skip cur
  | x :: xs, 0, cur =>
    if sep.isPrefixOf (x :: xs) then
      cur.reverse :: py_split_go sep xs (sep.length - 1) []
    else
      py_split_go sep xs 0 (x :: cur)

/-- Python `text.split(sep)` for a nonempty separator `sep`: splits on
leftmost non-overlapping occurrences, keeping empty fields.  (Python
raises on an empty separator; every caller in the source guards that
case.) -/
def py_split (sep : List Char) (text : List Char) : List (List Char) :=
  py_split_go sep text 0 []

/-- Worker for `split_by_length`: emits the window `take chunk_size`
and advances by `step` characters (one via the cons pattern, `step - 1`
via `drop`).  `fuel` bounds the iteration count; `text.length` is always
sufficient since `step ≥ 1` on every faithful call. -/
def split_by_length_go (chunk_size step : Nat) : Nat → List Char → List (List Char)
  | 0, _ => []
  | _, [] => []
  | Nat.succ fuel, x :: xs =>
    (x :: xs).take chunk_size :: split_by_length_go chunk_size step fuel (xs.drop (step - 1))

/-- `RecursiveTextSplitter._split_by_length`: fixed windows of
`chunk_size` characters stepped by `chunk_size - chunk_overlap`.
Faithful to the Python source whenever `chunk_overlap < chunk_size`
(so that the Python `range` step is positive); `split_by_length_py`
below models the `range` semantics for a non-positive step as well. -/
def split_by_length (chunk_size chunk_overlap : Nat) (text : List Char) : List (List Char) :=
  split_by_length_go chunk_size (chunk_size - chunk_overlap) text.length text

/-- `RecursiveTextSplitter._split_by_length` including the Python
behaviour of `range(0, len(text), step)` for a non-positive step:
`step = 0` raises `ValueError`, `step < 0` yields no iterations at all
(an empty result, with no error). -/
def split_by_length_py (chunk_size chunk_overlap : Nat) (text : List Char) :
    Except String (List (List Char)) :=
  if chunk_size = chunk_overlap then
    Except.error "range() arg 3 must not be zero"
  else if chunk_size < chunk_overlap then
    Except.ok []
  else
    Except.ok (split_by_length chunk_size chunk_overlap text)

/-- The default separator hierarchy of `RecursiveTextSplitter.__init__`:
paragraph break, line break, Chinese and English sentence terminators,
semicolons, space, and finally the empty separator (character level). -/
def default_separators : List (List Char) :=
  [['\n', '\n'], ['\n'], ['。'], ['.'], ['！'], ['!'], ['？'], ['?'],
   ['；'], [';'], [' '], []]

/-- The greedy re-accumulation loop inside
`RecursiveTextSplitter._recursive_split`.  Each element of the worklist
pairs a part with the result of recursively splitting that part with the
remaining separators (used only when the part itself exceeds
`chunk_size`).  `cur` is Python's `current_chunk`, `acc` is `result`. -/
def recursive_split_loop (chunk_size : Nat) (sep : List Char) :
    List (List Char × List (List Char)) → List Char → List (List Char) → List (List Char)
  | [], cur, acc => if cur = [] then acc else acc ++ [cur]
  | (part, sub) :: ps, cur, acc =>
    let test := if cur = [] then part else cur ++ sep ++ part
    if test.length ≤ chunk_size then
      recursive_split_loop chunk_size sep ps test acc
    else
      let acc1 := if cur = [] then acc else acc ++ [cur]
      if chunk_size < part.length then
        recursive_split_loop chunk_size sep ps [] (acc1 ++ sub)
      else
        recursive_split_loop chunk_size sep ps part acc1

/-- `RecursiveTextSplitter._recursive_split`: if the text fits, emit it
whole; otherwise split on the first separator (character level for the
empty separator), greedily re-accumulate parts up to `chunk_size`, and
recurse with the finer separators into any part that alone exceeds
`chunk_size`; with no separator left fall back to fixed-length windows. -/
def recursive_split (chunk_size chunk_overlap : Nat) :
    List (List Char) → List Char → List (List Char)
  | seps, text =>
    if text = [] then []
    else if text.length ≤ chunk_size then [text]
    else
      match seps with
      | [] => split_by_length chunk_size chunk_overlap text
      | sep :: rest =>
        let parts := if sep = [] then text.map (fun c => [c]) else py_split sep text
        let worklist := parts.map (fun p => (p, recursive_split chunk_size chunk_overlap rest p))
        recursive_split_loop chunk_size sep worklist [] []

/-- The loop of `RecursiveTextSplitter._merge_small_chunks`.  Note that
the bound check compares `len(current_chunk) + len(chunk)` against
`chunk_size` but the merged text inserts an extra `"\n"` between them;
and the `min_chunk_size = chunk_size // 4` threshold computed by the
source is never consulted by this loop. -/
def merge_small_chunks_loop (chunk_size : Nat) :
    List (List Char) → List Char → List (List Char) → List (List Char)
  | [], cur, acc => if cur = [] then acc else acc ++ [cur]
  | c :: cs, cur, acc =>
    if cur.length + c.length ≤ chunk_size then
      merge_small_chunks_loop chunk_size cs (if cur = [] then c else cur ++ ['\n'] ++ c) acc
    else
      merge_small_chunks_loop chunk_size cs c (if cur = [] then acc else acc ++ [cur])

/-- `RecursiveTextSplitter._merge_small_chunks`. -/
def merge_small_chunks (chunk_size : Nat) (chunks : List (List Char)) : List (List Char) :=
  if chunks = [] then [] else merge_small_chunks_loop chunk_size chunks [] []

/-- The chunk contents produced by `RecursiveTextSplitter.split` (the
recursive split followed by the small-chunk merge pass; position
reconstruction does not alter contents). -/
def split_contents (chunk_size chunk_overlap : Nat) (text : List Char) : List (List Char) :=
  merge_small_chunks chunk_size
    (recursive_split chunk_size chunk_overlap default_separators text)

/-- Python `str.lower` on one character (ASCII range, which covers the
splitter type names). -/
def py_lower_char (c : Char) : Char :=
  if 'A' ≤ c ∧ c ≤ 'Z' then Char.ofNat (c.toNat + 32) else c

/-- Python `str.lower` as used by `create_splitter`. -/
def py_lower (s : List Char) : List Char := s.map py_lower_char

/-- A splitter as configured by `create_splitter`. -/
structure SplitterCfg where
  kind : List Char
  chunk_size : Nat
  chunk_overlap : Nat
deriving DecidableEq

/-- `create_splitter`: looks the (lower-cased) splitter type up among
`recursive`, `markdown`, `sentence` and raises `ValueError` for an
unknown type; the `chunk_size`/`chunk_overlap` pair is passed through
without any validation. -/
def create_splitter (splitter_type : List Char) (chunk_size chunk_overlap : Nat) :
    Except (List Char) SplitterCfg :=
  let key := py_lower splitter_type
  if key = String.toList "recursive" ∨ key = String.toList "markdown" ∨
      key = String.toList "sentence" then
    Except.ok ⟨key, chunk_size, chunk_overlap⟩
  else
    Except.error (String.toList "未知的分片器类型: " ++ splitter_type)

/-! ## Retriever (`app/core/rag/retriever.py`)

Elasticsearch responses enter as `Except String (List SearchHit)`
parameters: `Except.error` is an exception raised by the engine client,
`Except.ok hits` the parsed hit list of a successful response.
-/

/-- One hit of an Elasticsearch response (`_id`, `_score` and the
`_source` fields read back by the retriever). -/
structure SearchHit where
  id : String
  score : ℚ
  content : String
  document_id : Option Nat
  chunk_index : Option Nat
  kb_id : Option Nat
deriving DecidableEq

/-- The `SearchResult` dataclass of `retriever.py`. -/
structure SearchResult where
  id : String
  score : ℚ
  content : String
  document_id : Option Nat
  chunk_index : Option Nat
  kb_id : Option Nat
deriving DecidableEq

/-- Field-for-field construction of a `SearchResult` from a hit, as in
the parsing loops of `search` and `hybrid_search`. -/
def hit_to_result (h : SearchHit) : SearchResult :=
  ⟨h.id, h.score, h.content, h.document_id, h.chunk_index, h.kb_id⟩

/-- `ElasticsearchRetriever.search`: runs the kNN-plus-lexical-should
query; an engine exception is caught, logged, and turned into an empty
result list; on success, hits scoring below `score_threshold` are
skipped and the rest returned in engine order. -/
def search (engine : Except String (List SearchHit)) (score_threshold : ℚ) :
    List SearchResult :=
  match engine with
  | Except.error _ => []
  | Except.ok hits =>
    (hits.filter (fun h => ¬ h.score < score_threshold)).map hit_to_result

/-- `ElasticsearchRetriever.hybrid_search`: submits the native RRF
query (`rrf_engine` outcome); if the engine rejects it, falls back to
`self.search(kb_ids, query_vector, query_text, top_k)`, i.e. the plain
single-query search with its default `score_threshold = 0.5`
(`fallback_engine` outcome).  On RRF success no threshold filtering is
applied. -/
def hybrid_search (rrf_engine : Except String (List SearchHit))
    (fallback_engine : Except String (List SearchHit)) : List SearchResult :=
  match rrf_engine with
  | Except.ok hits => hits.map hit_to_result
  | Except.error _ => search fallback_engine (1 / 2)

/-- Modelled from the spec: the client-side Reciprocal Rank Fusion
score of a document over several ranked id lists,
`Σ 1 / (rank_constant + rank_in_list)` with 1-based ranks, summed over
the lists in which the document appears.  The source has no client-side
fusion; this definition exists only to compare the fallback behaviour of
`hybrid_search` against the fusion the spec prescribes. -/
def spec_rrf_score (rank_constant : ℚ) (lists : List (List String)) (doc : String) : ℚ :=
  (lists.map (fun l =>
    match l.findIdx? (fun x => x == doc) with
    | some i => 1 / (rank_constant + (i : ℚ) + 1)
    | none => 0)).sum

/-! ## QA service (`app/core/rag/qa.py`) -/

/-- The `RerankResult` items returned by the rerank collaborator:
`index` points into the candidate list handed to it. -/
structure RerankResult where
  index : Nat
  score : ℚ
deriving DecidableEq

/-- The `RetrievalContext` dataclass of `qa.py`. -/
structure RetrievalContext where
  content : String
  score : ℚ
  document_id : Option Nat
  chunk_index : Option Nat
deriving DecidableEq

/-- The constructor parameters of `RAGService`. -/
structure RAGCfg where
  use_rerank : Bool
  top_k_retrieve : Nat
  top_k_rerank : Nat
  score_threshold : ℚ

/-- The module-level `rag_service = RAGService()` instance, built with
the constructor defaults. -/
def default_rag_cfg : RAGCfg := ⟨true, 20, 5, 1 / 2⟩

/-- Conversion used on the no-rerank path of `RAGService.retrieve`. -/
def result_to_context (r : SearchResult) : RetrievalContext :=
  ⟨r.content, r.score, r.document_id, r.chunk_index⟩

/-- `RAGService.retrieve`, given the engine outcome of the search and
the rerank collaborator's output: empty search results short-circuit to
`[]`; with reranking enabled and more than one candidate the rerank
output is mapped back onto the candidates (an out-of-range rerank index,
which would raise `IndexError` in the source, is dropped); otherwise the
first `top_k_rerank` results are returned. -/
def RAGService.retrieve (cfg : RAGCfg) (engine : Except String (List SearchHit))
    (rerank_out : List RerankResult) : List RetrievalContext :=
  let search_results := search engine cfg.score_threshold
  if search_results = [] then []
  else if cfg.use_rerank ∧ 1 < search_results.length then
    rerank_out.filterMap (fun rr =>
      (search_results.get? rr.index).map (fun o =>
        ⟨o.content, rr.score, o.document_id, o.chunk_index⟩))
  else
    (search_results.take cfg.top_k_rerank).map result_to_context

/-- `RAGService.retrieve` including the query-embedding step that
precedes the search: a provider exception in
`embedding_service.embed(query)` propagates to the caller uncaught. -/
def RAGService.retrieve_run (cfg : RAGCfg) (embed_out : Except String (List Int))
    (engine : Except String (List SearchHit)) (rerank_out : List RerankResult) :
    Except String (List RetrievalContext) :=
  match embed_out with
  | Except.error e => Except.error e
  | Except.ok _ => Except.ok (RAGService.retrieve cfg engine rerank_out)

/-- Response of the `llm_service.chat` generation collaborator. -/
structure LLMResponse where
  content : String
  input_tokens : Nat
  output_tokens : Nat
deriving DecidableEq

/-- One entry of the `sources` list built by `RAGService.answer`. -/
structure SourceRef where
  content : String
  score : ℚ
  document_id : Option Nat
  chunk_index : Option Nat
deriving DecidableEq

/-- The fixed no-match response of `RAGService.answer`. -/
def no_match_answer : String := "抱歉，未在知识库中找到相关信息。"

/-- Source construction of `RAGService.answer`: contents longer than
200 characters are excerpted. -/
def context_to_source (ctx : RetrievalContext) : SourceRef :=
  ⟨if 200 < ctx.content.length then ctx.content.take 200 ++ "..." else ctx.content,
   ctx.score, ctx.document_id, ctx.chunk_index⟩

/-- The `RAGResult` dataclass of `qa.py`. -/
structure RAGResult where
  answer : String
  sources : List SourceRef
  input_tokens : Nat
  output_tokens : Nat
deriving DecidableEq

/-- `RAGService.answer`, returning the result paired with the number of
calls made to the `llm_service.chat` generation collaborator: empty
retrieval yields the fixed no-match response with no sources and zero
generation calls; otherwise the context is built and the collaborator
called exactly once. -/
def RAGService.answer (cfg : RAGCfg) (embed_out : Except String (List Int))
    (engine : Except String (List SearchHit)) (rerank_out : List RerankResult)
    (llm : LLMResponse) : Except String (RAGResult × Nat) :=
  match RAGService.retrieve_run cfg embed_out engine rerank_out with
  | Except.error e => Except.error e
  | Except.ok contexts =>
    if contexts = [] then
      Except.ok (⟨no_match_answer, [], 0, 0⟩, 0)
    else
      Except.ok (⟨llm.content, contexts.map context_to_source,
                  llm.input_tokens, llm.output_tokens⟩, 1)

/-! ## Ingestion orchestrator (`app/services/document_processor.py`)

`process_document` drives one document through
parse → split → embed → index → persist.  The processor is built with
`create_splitter("recursive", chunk_size=500, chunk_overlap=50)`.
Collaborator outcomes are explicit parameters; database writes inside
the session commit only at the end, while Elasticsearch writes take
effect immediately.
-/

/-- One embedding returned by `embedding_service.embed_batch` (the
vector itself is opaque to the orchestrator). -/
structure EmbRes where
  vector : List Int
  token_count : Nat
deriving DecidableEq

/-- An entry of the per-knowledge-base Elasticsearch index.  The `id`
pair `(document_id, chunk_index)` stands for the source's opaque string
id `"{document_id}_{chunk_index}"`. -/
structure IndexEntryRec where
  id : Nat × Nat
  content : List Char
  document_id : Nat
  chunk_index : Nat
deriving DecidableEq

/-- A `DocumentChunk` row. -/
structure ChunkRowRec where
  document_id : Nat
  chunk_index : Nat
  content : List Char
  content_length : Nat
  token_count : Nat
deriving DecidableEq

/-- The mutable columns of the `Document` row that the orchestrator
touches. -/
structure DocState where
  status : String
  chunk_count : Nat
  error_message : Option String
deriving DecidableEq

/-- The state visible to one `process_document` run: the document row,
its chunk rows, and the Elasticsearch entries of its knowledge base. -/
structure ProcWorld where
  doc : DocState
  chunk_rows : List ChunkRowRec
  index_entries : List IndexEntryRec
deriving DecidableEq

/-- Outcome of `embedding_service.embed_batch(chunk_texts)`.  A provider
response carrying fewer items than texts is returned as-is by the
embedder (`for item in data.get("data", [])`), so `ok embs` does not
force `embs.length` to match the number of chunks. -/
inductive EmbedOutcome
  | ok (embs : List EmbRes)
  | exn (msg : String)

/-- Outcome of `client.bulk`: either a response with one status per
item (`done item_ok`, `true` for HTTP 200/201), or a raised exception
after some prefix-selection `written` of the items already reached the
index. -/
inductive BulkOutcome
  | done (item_ok : List Bool)
  | exn (written : List Bool) (msg : String)

/-- Outcome of the final `session.commit()`. -/
inductive CommitOutcome
  | ok
  | exn (msg : String)

/-- The `es_documents` list built in step 5 of `process_document`:
`zip(chunks, embeddings)` truncates silently to the shorter of the two
lists. -/
def es_documents (doc_id : Nat) (chunks : List (List Char)) (embs : List EmbRes) :
    List IndexEntryRec :=
  (chunks.zip embs).enum.map (fun p => ⟨(doc_id, p.1), p.2.1, doc_id, p.1⟩)

/-- The `DocumentChunk` rows added in step 6 of `process_document`,
again over `zip(chunks, embeddings)`. -/
def chunk_db_rows (doc_id : Nat) (chunks : List (List Char)) (embs : List EmbRes) :
    List ChunkRowRec :=
  (chunks.zip embs).enum.map (fun p => ⟨doc_id, p.1, p.2.1, p.2.1.length, p.2.2.token_count⟩)

/-- The subset of the bulk payload that the engine actually wrote,
selected by per-item flags. -/
def bulk_written (docs : List IndexEntryRec) (flags : List Bool) : List IndexEntryRec :=
  (docs.zip flags).filterMap (fun p => if p.2 then some p.1 else none)

/-- `bulk_index`'s return value: the number of items whose status is
200 or 201.  `process_document` ignores it. -/
def bulk_success_count (flags : List Bool) : Nat := flags.count true

/-- The `except` handler of `process_document`: `session.rollback()`
(pending chunk rows and the pending status update are discarded; index
entries already written are not touched — no `delete_by_document` call
exists on this path) followed by `_update_status(session, doc_id,
"failed", str(e))`. -/
def fail_world (w : ProcWorld) (msg : String) : ProcWorld :=
  { w with doc := { w.doc with status := "failed", error_message := some msg } }

/-- `DocumentProcessor.process_document` as a function of the parsed
text and the collaborator outcomes. -/
def process_document (doc_id : Nat) (text : List Char) (embed_out : EmbedOutcome)
    (bulk_out : BulkOutcome) (commit_out : CommitOutcome) (w : ProcWorld) : ProcWorld :=
  let w1 : ProcWorld := { w with doc := { w.doc with status := "processing" } }
  if text = [] then fail_world w1 "文档内容为空"
  else
    let chunks := split_contents 500 50 text
    if chunks = [] then fail_world w1 "切片结果为空"
    else
      match embed_out with
      | EmbedOutcome.exn msg => fail_world w1 msg
      | EmbedOutcome.ok embs =>
        let docs := es_documents doc_id chunks embs
        match bulk_out with
        | BulkOutcome.exn written msg =>
          fail_world
            { w1 with index_entries := w1.index_entries ++ bulk_written docs written } msg
        | BulkOutcome.done item_ok =>
          let w2 : ProcWorld :=
            { w1 with index_entries := w1.index_entries ++ bulk_written docs item_ok }
          match commit_out with
          | CommitOutcome.exn msg => fail_world w2 msg
          | CommitOutcome.ok =>
            { w2 with
              chunk_rows := w2.chunk_rows ++ chunk_db_rows doc_id chunks embs,
              doc := { w2.doc with status := "completed", chunk_count := chunks.length } }

/-! ## Document endpoints (`app/api/knowledge.py`) -/

/-- A `Document` row as the endpoints see it. -/
structure DocRow where
  id : Nat
  kb_id : Nat
  status : String
  chunk_count : Nat
  file_path : Option String
deriving DecidableEq

/-- A `KnowledgeBase` row (`document_count` is a Python int, kept as
`Int` so that the `max(0, ...)` floor is visible). -/
structure KBRow where
  id : Nat
  document_count : Int
deriving DecidableEq

/-- The application state the document endpoints operate on. -/
structure AppState where
  docs : List DocRow
  chunks : List ChunkRowRec
  kbs : List KBRow
  index_entries : List IndexEntryRec
deriving DecidableEq

/-- The methods defined on `ElasticsearchRetriever` in
`app/core/rag/retriever.py`. -/
def retriever_methods : List String :=
  ["get_client", "close", "_get_index_name", "create_index", "delete_index",
   "index_document", "bulk_index", "delete_by_document", "search", "hybrid_search"]

/-- The Elasticsearch cleanup loop of the `reprocess_document` endpoint:
for each old chunk index it runs `await retriever.delete_document(kb_id,
es_doc_id)` inside `try/except: pass`.  `ElasticsearchRetriever` defines
no method named `delete_document`, so the attribute lookup raises
`AttributeError`, which the bare `except` swallows: the condition below
is false and the index is returned unchanged. -/
def reprocess_es_cleanup (index : List IndexEntryRec) (doc_id chunk_count : Nat) :
    List IndexEntryRec :=
  if "delete_document" ∈ retriever_methods then
    (List.range chunk_count).foldl
      (fun idx i => idx.filter (fun e => e.id ≠ (doc_id, i))) index
  else index

/-- The synchronous effect of the `reprocess_document` endpoint: 404 on
an unknown document, 400 on a missing file path or file; otherwise the
old `DocumentChunk` rows are deleted, the Elasticsearch cleanup loop is
run, and the document is set to `processing` with `chunk_count = 0`
before the background processing task is spawned. -/
def reprocess_document (st : AppState) (kb_id doc_id : Nat) (file_exists : Bool) :
    Except Nat AppState :=
  match st.docs.find? (fun d => d.id == doc_id && d.kb_id == kb_id) with
  | none => Except.error 404
  | some doc =>
    if doc.file_path = none then Except.error 400
    else if file_exists = false then Except.error 400
    else
      Except.ok { st with
        chunks := st.chunks.filter (fun c => c.document_id ≠ doc_id),
        index_entries :=
          if 0 < doc.chunk_count then
            reprocess_es_cleanup st.index_entries doc_id doc.chunk_count
          else st.index_entries,
        docs := st.docs.map (fun d =>
          if d.id = doc_id then { d with status := "processing", chunk_count := 0 } else d) }

/-- The `delete_document` endpoint (single-document delete): 404 on an
unknown document; otherwise the document's `DocumentChunk` rows and the
`Document` row itself are deleted and the knowledge base's
`document_count` is decremented with a floor at zero.  No Elasticsearch
call appears anywhere in this endpoint. -/
def delete_document (st : AppState) (kb_id doc_id : Nat) : Except Nat AppState :=
  match st.docs.find? (fun d => d.id == doc_id && d.kb_id == kb_id) with
  | none => Except.error 404
  | some _ =>
    Except.ok { st with
      chunks := st.chunks.filter (fun c => c.document_id ≠ doc_id),
      docs := st.docs.filter (fun d => ¬ (d.id = doc_id ∧ d.kb_id = kb_id)),
      kbs := st.kbs.map (fun kb =>
        if kb.id = kb_id then { kb with document_count := max 0 (kb.document_count - 1) }
        else kb) }

/-! ## Concrete fixtures used by witnesses and counterexamples -/

/-- A hit whose score 0.4 lies below the default threshold 0.5. -/
def hitA : SearchHit := ⟨"A", 2 / 5, "alpha", some 1, some 0, some 1⟩

/-- A fresh document row before its first processing run. -/
def w0 : ProcWorld := ⟨⟨"pending", 0, none⟩, [], []⟩

/-- One completed document (id 1, two chunks) in knowledge base 1 with
its two index entries; the knowledge base counts three documents. -/
def fixture_state : AppState :=
  ⟨[⟨1, 1, "completed", 2, some "/f"⟩],
   [⟨1, 0, ['a'], 1, 0⟩, ⟨1, 1, ['b'], 1, 0⟩],
   [⟨1, 3⟩],
   [⟨(1, 0), ['a'], 1, 0⟩, ⟨(1, 1), ['b'], 1, 0⟩]⟩

/-- `fixture_state` after the `reprocess_document` endpoint ran: chunk
rows gone, `chunk_count` reset, but both index entries still present. -/
def fixture_reprocessed : AppState :=
  ⟨[⟨1, 1, "processing", 0, some "/f"⟩],
   [],
   [⟨1, 3⟩],
   [⟨(1, 0), ['a'], 1, 0⟩, ⟨(1, 1), ['b'], 1, 0⟩]⟩

/-- `fixture_state` after the `delete_document` endpoint ran. -/
def fixture_deleted : AppState :=
  ⟨[], [], [⟨1, 2⟩], [⟨(1, 0), ['a'], 1, 0⟩, ⟨(1, 1), ['b'], 1, 0⟩]⟩

/-! ## Helper lemmas: chunk length bounds through the splitter -/

theorem length_le_of_mem_split_by_length_go (cs step : Nat) :
    ∀ (fuel : Nat) (l : List Char), ∀ c ∈ split_by_length_go cs step fuel l,
      c.length ≤ cs := by
  intro fuel
  induction fuel with
  | zero => intro l c hc; simp [split_by_length_go] at hc
  | succ n ih =>
    intro l c hc
    cases l with
    | nil => simp [split_by_length_go] at hc
    | cons x xs =>
      simp only [split_by_length_go, List.mem_cons] at hc
      rcases hc with h | h
      · subst h; rw [List.length_take]; exact min_le_left _ _
      · exact ih _ c h

theorem length_le_of_mem_recursive_split_loop (cs : Nat) (sep : List Char) :
    ∀ (ps : List (List Char × List (List Char))) (cur : List Char)
      (acc : List (List Char)),
      (∀ x ∈ acc, x.length ≤ cs) → cur.length ≤ cs →
      (∀ p ∈ ps, ∀ c ∈ p.2, c.length ≤ cs) →
      ∀ c ∈ recursive_split_loop cs sep ps cur acc, c.length ≤ cs := by
  intro ps
  induction ps with
  | nil =>
    intro cur acc hacc hcur _ c hc
    simp only [recursive_split_loop] at hc
    by_cases h : cur = []
    · rw [if_pos h] at hc; exact hacc c hc
    · rw [if_neg h] at hc
      rcases List.mem_append.mp hc with h1 | h1
      · exact hacc c h1
      · simp only [List.mem_singleton] at h1; subst h1; exact hcur
  | cons p ps ih =>
    intro cur acc hacc hcur hps c hc
    obtain ⟨part, sub⟩ := p
    have hsub : ∀ c2 ∈ sub, c2.length ≤ cs := fun c2 h2 => hps (part, sub) (by simp) c2 h2
    have hps2 : ∀ q ∈ ps, ∀ c2 ∈ q.2, c2.length ≤ cs :=
      fun q hq => hps q (List.mem_cons_of_mem _ hq)
    simp only [recursive_split_loop] at hc
    by_cases htest : (if cur = [] then part else cur ++ sep ++ part).length ≤ cs
    · rw [if_pos htest] at hc
      exact ih _ acc hacc htest hps2 c hc
    · rw [if_neg htest] at hc
      have hacc1 : ∀ x ∈ (if cur = [] then acc else acc ++ [cur]), x.length ≤ cs := by
        by_cases h0 : cur = []
        · rw [if_pos h0]; exact hacc
        · rw [if_neg h0]
          intro x hx
          rcases List.mem_append.mp hx with h1 | h1
          · exact hacc x h1
          · simp only [List.mem_singleton] at h1; subst h1; exact hcur
      by_cases hbig : cs < part.length
      · rw [if_pos hbig] at hc
        refine ih _ _ ?_ (by simp) hps2 c hc
        intro x hx
        rcases List.mem_append.mp hx with h1 | h1
        · exact hacc1 x h1
        · exact hsub x h1
      · rw [if_neg hbig] at hc
        exact ih _ _ hacc1 (Nat.le_of_not_lt hbig) hps2 c hc

theorem length_le_of_mem_recursive_split (cs co : Nat) :
    ∀ (seps : List (List Char)) (text : List Char),
      ∀ c ∈ recursive_split cs co seps text, c.length ≤ cs := by
  intro seps
  induction seps with
  | nil =>
    intro text c hc
    simp only [recursive_split] at hc
    by_cases h0 : text = []
    · rw [if_pos h0] at hc; simp at hc
    · rw [if_neg h0] at hc
      by_cases h1 : text.length ≤ cs
      · rw [if_pos h1] at hc
        simp only [List.mem_singleton] at hc; subst hc; exact h1
      · rw [if_neg h1] at hc
        simp only [split_by_length] at hc
        exact length_le_of_mem_split_by_length_go cs _ _ _ c hc
  | cons sep rest ih =>
    intro text c hc
    simp only [recursive_split] at hc
    by_cases h0 : text = []
    · rw [if_pos h0] at hc; simp at hc
    · rw [if_neg h0] at hc
      by_cases h1 : text.length ≤ cs
      · rw [if_pos h1] at hc
        simp only [List.mem_singleton] at hc; subst hc; exact h1
      · rw [if_neg h1] at hc
        refine length_le_of_mem_recursive_split_loop cs sep _ [] []
          (by simp) (by simp) ?_ c hc
        intro p hp c2 hc2
        rcases List.mem_map.mp hp with ⟨q, _, rfl⟩
        exact ih q c2 hc2

theorem length_le_of_mem_merge_loop (cs : Nat) :
    ∀ (chs : List (List Char)) (cur : List Char) (acc : List (List Char)),
      (∀ x ∈ acc, x.length ≤ cs + 1) → cur.length ≤ cs + 1 →
      (∀ x ∈ chs, x.length ≤ cs) →
      ∀ c ∈ merge_small_chunks_loop cs chs cur acc, c.length ≤ cs + 1 := by
  intro chs
  induction chs with
  | nil =>
    intro cur acc hacc hcur _ c hc
    simp only [merge_small_chunks_loop] at hc
    by_cases h : cur = []
    · rw [if_pos h] at hc; exact hacc c hc
    · rw [if_neg h] at hc
      rcases List.mem_append.mp hc with h1 | h1
      · exact hacc c h1
      · simp only [List.mem_singleton] at h1; subst h1; exact hcur
  | cons b bs ih =>
    intro cur acc hacc hcur hb c hc
    have hbhead : b.length ≤ cs := hb b (by simp)
    have hbtail : ∀ x ∈ bs, x.length ≤ cs := fun x hx => hb x (List.mem_cons_of_mem _ hx)
    simp only [merge_small_chunks_loop] at hc
    by_cases ht : cur.length + b.length ≤ cs
    · rw [if_pos ht] at hc
      refine ih _ acc hacc ?_ hbtail c hc
      by_cases h0 : cur = []
      · rw [if_pos h0]; exact le_trans hbhead (Nat.le_succ _)
      · rw [if_neg h0]
        simp only [List.length_append, List.length_singleton]
        omega
    · rw [if_neg ht] at hc
      refine ih _ _ ?_ (le_trans hbhead (Nat.le_succ _)) hbtail c hc
      by_cases h0 : cur = []
      · rw [if_pos h0]; exact hacc
      · rw [if_neg h0]
        intro x hx
        rcases List.mem_append.mp hx with h1 | h1
        · exact hacc x h1
        · simp only [List.mem_singleton] at h1; subst h1; exact hcur

/-! ## Claim C5 -/

/-- C5: the claim states that every chunk emitted by the recursive
splitter, including after the merge pass, has length at most
`chunk_size`, with the only exception being an oversized atomic
separator-unit bounded by the fixed-length fallback.  False: with
`chunk_size = 5`, `chunk_overlap = 1`, input `"aaa\n\nbb"` — where every
separator-unit is short, so the exception clause does not apply and the
fallback never runs — the merge pass joins `"aaa"` and `"bb"` with an
inserted newline its bound check does not count, emitting a single
6-character chunk. -/
theorem C5_counterexample :
    split_contents 5 1 (String.toList "aaa\n\nbb") = [String.toList "aaa\nbb"] ∧
    5 < (String.toList "aaa\nbb").length ∧
    (∀ p ∈ py_split ['\n', '\n'] (String.toList "aaa\n\nbb"), p.length ≤ 5) := by
  decide

/-- C5 (amended): under a well-formed configuration
(`chunk_overlap < chunk_size`), every chunk emitted by the recursive
splitter after the merge pass has length at most `chunk_size + 1`: the
recursive split itself (fixed-length fallback included) is bounded by
`chunk_size`, and the merge pass can exceed that bound by exactly the
one newline character it inserts without counting it. -/
theorem C5_amended (chunk_size chunk_overlap : Nat)
    (h : chunk_overlap < chunk_size) (text : List Char) (c : List Char)
    (hc : c ∈ split_contents chunk_size chunk_overlap text) :
    c.length ≤ chunk_size + 1 := by
  have hrec := length_le_of_mem_recursive_split chunk_size chunk_overlap
    default_separators text
  unfold split_contents merge_small_chunks at hc
  split at hc
  · simp at hc
  · exact length_le_of_mem_merge_loop chunk_size _ [] [] (by simp) (by simp) hrec c hc

/-- C5 witness: the amended bound applied to the concrete 6-character
chunk of the counterexample input. -/
theorem C5_witness : (String.toList "aaa\nbb").length ≤ 5 + 1 :=
  C5_amended 5 1 (by decide) (String.toList "aaa\n\nbb") (String.toList "aaa\nbb")
    (by decide)

/-! ## Claim C8 -/

/-- C8: the claim states that the merge post-pass merges exactly the
adjacent units shorter than `chunk_size / 4`, that merged results stay
within `chunk_size`, and that units of length at least `chunk_size / 4`
are never merged.  The loop never consults the quarter threshold (the
source computes `min_chunk_size = chunk_size // 4` into a variable it
never reads): with `chunk_size = 8` it merges two units of length
`3 ≥ 8 / 4 = 2`, and with `chunk_size = 5` the merged result
`"aaa\nbb"` has length `6 > 5`. -/
theorem C8_code_eval :
    merge_small_chunks 8 [String.toList "aaa", String.toList "bbb"] =
      [String.toList "aaa\nbbb"] ∧
    8 / 4 ≤ (String.toList "aaa").length ∧
    8 / 4 ≤ (String.toList "bbb").length ∧
    merge_small_chunks 5 [String.toList "aaa", String.toList "bb"] =
      [String.toList "aaa\nbb"] ∧
    5 < (String.toList "aaa\nbb").length := by
  decide

/-! ## Claim C9 -/

/-- C9: the claim states that a configuration with
`chunk_overlap ≥ chunk_size` is rejected at construction, before any
splitting work.  False: `create_splitter("recursive", 5, 5)` succeeds —
no size/overlap validation exists — and the fixed-length fallback then
meets the non-positive `range` step at runtime
(`ValueError` for equality). -/
theorem C9_counterexample :
    create_splitter (String.toList "recursive") 5 5 =
      Except.ok ⟨String.toList "recursive", 5, 5⟩ ∧
    split_by_length_py 5 5 (String.toList "abcdef") =
      Except.error "range() arg 3 must not be zero" :=
  ⟨rfl, rfl⟩

/-- C9 (amended): `create_splitter` validates only the splitter type:
construction succeeds for every `chunk_size`/`chunk_overlap` pair, and
when `chunk_overlap ≥ chunk_size` the invalid relationship surfaces
only at runtime inside the fixed-length fallback, as a `ValueError`
from `range` when the step is zero and as a silently empty result when
it is negative. -/
theorem C9_amended (chunk_size chunk_overlap : Nat)
    (h : chunk_size ≤ chunk_overlap) (text : List Char) :
    create_splitter (String.toList "recursive") chunk_size chunk_overlap =
      Except.ok ⟨String.toList "recursive", chunk_size, chunk_overlap⟩ ∧
    split_by_length_py chunk_size chunk_overlap text =
      (if chunk_size = chunk_overlap then
        Except.error "range() arg 3 must not be zero"
      else Except.ok []) := by
  constructor
  · rfl
  · unfold split_by_length_py
    rcases Nat.lt_or_ge chunk_size chunk_overlap with hlt | hge
    · rw [if_neg (Nat.ne_of_lt hlt), if_pos hlt, if_neg (Nat.ne_of_lt hlt)]
    · have heq : chunk_size = chunk_overlap := Nat.le_antisymm h hge
      rw [if_pos heq, if_pos heq]

/-- C9 witness: the amended statement at the concrete boundary
configuration `chunk_size = chunk_overlap = 5`. -/
theorem C9_witness :
    create_splitter (String.toList "recursive") 5 5 =
      Except.ok ⟨String.toList "recursive", 5, 5⟩ ∧
    split_by_length_py 5 5 (String.toList "a") =
      (if 5 = 5 then Except.error "range() arg 3 must not be zero"
       else Except.ok []) :=
  C9_amended 5 5 (by decide) (String.toList "a")

/-! ## Claim C1 -/

/-- C1: the claim states that a run ending in `completed` has
`chunk_count` equal to the persisted chunk rows and to the accepted
index entries, and that `completed` is impossible when the embedding
count falls short of the chunk count.  False: with one chunk
(`"hello"`) and an embedding batch that came back empty, the run still
ends `completed` with `chunk_count = 1` while zero chunk rows and zero
index entries exist — `zip(chunks, embeddings)` truncates silently and
the bulk success count is never checked. -/
theorem C1_counterexample :
    process_document 1 (String.toList "hello") (EmbedOutcome.ok [])
        (BulkOutcome.done []) CommitOutcome.ok w0 =
      ⟨⟨"completed", 1, none⟩, [], []⟩ ∧
    (split_contents 500 50 (String.toList "hello")).length = 1 := by
  exact ⟨rfl, rfl⟩

/-- C1 (amended): on the exception-free path the orchestrator always
ends `completed` with `chunk_count` equal to the number of chunks the
splitter produced — for every per-item bulk outcome and every embedding
count — while the persisted chunk rows number
`min(#chunks, #embeddings)` and the index receives exactly the entries
the engine accepted.  The spec's three-way equality therefore holds
only when the embedding count matches the chunk count and every bulk
item is accepted; no code checks either condition. -/
theorem C1_amended (doc_id : Nat) (text : List Char) (embs : List EmbRes)
    (flags : List Bool) (w : ProcWorld) (ht : text ≠ [])
    (hc : split_contents 500 50 text ≠ []) :
    (process_document doc_id text (EmbedOutcome.ok embs) (BulkOutcome.done flags)
        CommitOutcome.ok w).doc.status = "completed" ∧
    (process_document doc_id text (EmbedOutcome.ok embs) (BulkOutcome.done flags)
        CommitOutcome.ok w).doc.chunk_count = (split_contents 500 50 text).length ∧
    (process_document doc_id text (EmbedOutcome.ok embs) (BulkOutcome.done flags)
        CommitOutcome.ok w).chunk_rows.length =
      w.chunk_rows.length + min (split_contents 500 50 text).length embs.length ∧
    (process_document doc_id text (EmbedOutcome.ok embs) (BulkOutcome.done flags)
        CommitOutcome.ok w).index_entries =
      w.index_entries ++
        bulk_written (es_documents doc_id (split_contents 500 50 text) embs) flags := by
  refine ⟨?_, ?_, ?_, ?_⟩ <;>
    simp [process_document, ht, hc, chunk_db_rows, List.length_zip]

/-- C1 witness: the amended statement at the counterexample input. -/
theorem C1_witness :
    (process_document 1 (String.toList "hello") (EmbedOutcome.ok [])
        (BulkOutcome.done []) CommitOutcome.ok w0).doc.status = "completed" ∧
    (process_document 1 (String.toList "hello") (EmbedOutcome.ok [])
        (BulkOutcome.done []) CommitOutcome.ok w0).doc.chunk_count =
      (split_contents 500 50 (String.toList "hello")).length ∧
    (process_document 1 (String.toList "hello") (EmbedOutcome.ok [])
        (BulkOutcome.done []) CommitOutcome.ok w0).chunk_rows.length =
      w0.chunk_rows.length + min (split_contents 500 50 (String.toList "hello")).length
        (List.length ([] : List EmbRes)) ∧
    (process_document 1 (String.toList "hello") (EmbedOutcome.ok [])
        (BulkOutcome.done []) CommitOutcome.ok w0).index_entries =
      w0.index_entries ++
        bulk_written (es_documents 1 (split_contents 500 50 (String.toList "hello")) []) [] :=
  C1_amended 1 (String.toList "hello") [] [] w0 (by decide) (by decide)

/-! ## Claim C2 -/

/-- C2: the claim states that a failure occurring after chunks or
index entries were written rolls back every such write
(delete-by-document) before the status becomes `failed`.  False: a run
that bulk-indexed its one entry and then failed at commit ends with
status `failed` and the index entry still present — the failure handler
rolls back only the database session and issues no index delete. -/
theorem C2_counterexample :
    process_document 1 (String.toList "hello") (EmbedOutcome.ok [⟨[7], 1⟩])
        (BulkOutcome.done [true]) (CommitOutcome.exn "commit failed") w0 =
      ⟨⟨"failed", 0, some "commit failed"⟩, [],
       [⟨(1, 0), String.toList "hello", 1, 0⟩]⟩ :=
  rfl

/-- C2 (amended): after any modelled outcome the document's status is
`completed` or `failed` — never left at `processing` — which is the
half of the claim that holds; but on the failure paths that run after
the bulk write (a bulk exception or a commit failure) the index entries
written by the attempt remain in the index when `failed` is set: no
delete-by-document is issued on the failure path. -/
theorem C2_amended (doc_id : Nat) (text : List Char) (w : ProcWorld)
    (embs : List EmbRes) (flags : List Bool) (msg : String)
    (ht : text ≠ []) (hc : split_contents 500 50 text ≠ []) :
    (∀ eo bo co, (process_document doc_id text eo bo co w).doc.status = "completed" ∨
       (process_document doc_id text eo bo co w).doc.status = "failed") ∧
    (process_document doc_id text (EmbedOutcome.ok embs) (BulkOutcome.exn flags msg)
        CommitOutcome.ok w).doc.status = "failed" ∧
    (process_document doc_id text (EmbedOutcome.ok embs) (BulkOutcome.exn flags msg)
        CommitOutcome.ok w).index_entries =
      w.index_entries ++
        bulk_written (es_documents doc_id (split_contents 500 50 text) embs) flags ∧
    (process_document doc_id text (EmbedOutcome.ok embs) (BulkOutcome.done flags)
        (CommitOutcome.exn msg) w).doc.status = "failed" ∧
    (process_document doc_id text (EmbedOutcome.ok embs) (BulkOutcome.done flags)
        (CommitOutcome.exn msg) w).index_entries =
      w.index_entries ++
        bulk_written (es_documents doc_id (split_contents 500 50 text) embs) flags := by
  refine ⟨?_, ?_, ?_, ?_, ?_⟩
  · intro eo bo co
    by_cases h1 : text = []
    · right; simp [process_document, h1, fail_world]
    · by_cases h2 : split_contents 500 50 text = []
      · right; simp [process_document, h1, h2, fail_world]
      · cases eo with
        | exn m => right; simp [process_document, h1, h2, fail_world]
        | ok e =>
          cases bo with
          | exn wr m => right; simp [process_document, h1, h2, fail_world]
          | done ok2 =>
            cases co with
            | exn m => right; simp [process_document, h1, h2, fail_world]
            | ok => left; simp [process_document, h1, h2]
  · simp [process_document, ht, hc, fail_world]
  · simp [process_document, ht, hc, fail_world]
  · simp [process_document, ht, hc, fail_world]
  · simp [process_document, ht, hc, fail_world]

/-- C2 witness: the amended statement at the counterexample input. -/
theorem C2_witness :
    (∀ eo bo co, (process_document 1 (String.toList "hello") eo bo co w0).doc.status =
        "completed" ∨
      (process_document 1 (String.toList "hello") eo bo co w0).doc.status = "failed") ∧
    (process_document 1 (String.toList "hello") (EmbedOutcome.ok [⟨[7], 1⟩])
        (BulkOutcome.exn [true] "bulk failed") CommitOutcome.ok w0).doc.status =
      "failed" ∧
    (process_document 1 (String.toList "hello") (EmbedOutcome.ok [⟨[7], 1⟩])
        (BulkOutcome.exn [true] "bulk failed") CommitOutcome.ok w0).index_entries =
      w0.index_entries ++
        bulk_written (es_documents 1 (split_contents 500 50 (String.toList "hello"))
          [⟨[7], 1⟩]) [true] ∧
    (process_document 1 (String.toList "hello") (EmbedOutcome.ok [⟨[7], 1⟩])
        (BulkOutcome.done [true]) (CommitOutcome.exn "bulk failed") w0).doc.status =
      "failed" ∧
    (process_document 1 (String.toList "hello") (EmbedOutcome.ok [⟨[7], 1⟩])
        (BulkOutcome.done [true]) (CommitOutcome.exn "bulk failed") w0).index_entries =
      w0.index_entries ++
        bulk_written (es_documents 1 (split_contents 500 50 (String.toList "hello"))
          [⟨[7], 1⟩]) [true] :=
  C2_amended 1 (String.toList "hello") w0 [⟨[7], 1⟩] [true] "bulk failed"
    (by decide) (by decide)

/-! ## Claim C3 -/

/-- C3: the claim states that retrieval-engine failures surface as an
explicit error to the caller of `search`/`answer`, never as an empty
result or the fixed no-match answer.  False: an engine exception is
caught inside `search` and returned as `[]`, and `answer` then returns
the fixed no-match response with an empty source list and a successful
status — indistinguishable from a query that matched nothing. -/
theorem C3_counterexample :
    search (Except.error "connection refused") (1 / 2) = [] ∧
    RAGService.answer default_rag_cfg (Except.ok [1])
        (Except.error "connection refused") [] ⟨"ignored", 0, 0⟩ =
      Except.ok (⟨no_match_answer, [], 0, 0⟩, 0) :=
  ⟨rfl, rfl⟩

/-- C3 (amended): a failure of the embedding provider does propagate
to the caller as an error, but a failure of the retrieval engine is
caught by `search` and returned as an empty result list, so `answer`
reports the fixed no-match response as a success. -/
theorem C3_amended (msg : String) (thr : ℚ) (cfg : RAGCfg)
    (rerank_out : List RerankResult) (llm : LLMResponse) (emb : List Int) :
    search (Except.error msg) thr = [] ∧
    RAGService.answer cfg (Except.ok emb) (Except.error msg) rerank_out llm =
      Except.ok (⟨no_match_answer, [], 0, 0⟩, 0) ∧
    RAGService.retrieve_run cfg (Except.error msg) (Except.ok []) rerank_out =
      Except.error msg :=
  ⟨rfl, rfl, rfl⟩

/-! ## Claim C6 -/

/-- C6: the claim states that when the engine rejects the native RRF
query, the fused ranking is recomputed client-side from the two ranked
lists.  False: the fallback is a plain single-signal `search` with the
default threshold `0.5` — here it returns `[]` although both ranked
lists contain the document `"A"`, whose client-side RRF score is
positive, so the fused ranking the spec prescribes is nonempty. -/
theorem C6_counterexample :
    hybrid_search (Except.error "rrf query rejected") (Except.ok [hitA]) = [] ∧
    0 < spec_rrf_score 60 [["A"], ["A"]] "A" := by
  constructor
  · norm_num [hybrid_search, search, hitA, List.filter_cons]
  · have hpos : (0 : ℚ) < 1 / (60 + 0 + 1) + (1 / (60 + 0 + 1) + 0) := by norm_num
    simpa [spec_rrf_score, List.findIdx?_cons] using hpos

/-- C6 (amended): on engine rejection of the RRF query, `hybrid_search`
degrades to the plain score-threshold search (vector kNN plus lexical
should, threshold `0.5`) over the fallback engine outcome; no
client-side fusion of the two ranked lists exists. -/
theorem C6_amended (msg : String) (fallback : Except String (List SearchHit)) :
    hybrid_search (Except.error msg) fallback = search fallback (1 / 2) :=
  rfl

/-! ## Claim C7 -/

/-- C7: when every hit scores below the threshold, `answer` returns
the fixed no-match response with an empty source list and performs zero
calls to the generation collaborator.  Holds: `search` filters all hits
out, `retrieve` short-circuits on the empty list, and `answer` returns
the fixed response without touching `llm_service.chat`. -/
theorem C7_confirmed (cfg : RAGCfg) (hits : List SearchHit) (emb : List Int)
    (rerank_out : List RerankResult) (llm : LLMResponse)
    (h : ∀ hh ∈ hits, hh.score < cfg.score_threshold) :
    RAGService.answer cfg (Except.ok emb) (Except.ok hits) rerank_out llm =
      Except.ok (⟨no_match_answer, [], 0, 0⟩, 0) := by
  have hs : search (Except.ok hits) cfg.score_threshold = [] := by
    simp only [search, List.map_eq_nil_iff, List.filter_eq_nil_iff]
    intro a ha
    simpa using h a ha
  simp [RAGService.answer, RAGService.retrieve_run, RAGService.retrieve, hs]

/-- C7 witness: one hit scoring 0.4 against the default threshold 0.5
yields the fixed no-match response and zero generation calls. -/
theorem C7_witness :
    RAGService.answer default_rag_cfg (Except.ok [1]) (Except.ok [hitA]) []
        ⟨"unused", 0, 0⟩ = Except.ok (⟨no_match_answer, [], 0, 0⟩, 0) :=
  C7_confirmed default_rag_cfg [hitA] [1] [] ⟨"unused", 0, 0⟩ (by
    intro hh hmem
    simp only [List.mem_singleton] at hmem
    subst hmem
    show hitA.score < default_rag_cfg.score_threshold
    norm_num [hitA, default_rag_cfg])

/-! ## Claim C4 -/

/-- C4: the claim states that a reprocess request deletes all existing
chunk rows and all existing index entries before the new attempt.
The chunk rows are deleted and `chunk_count` is reset, but the
Elasticsearch cleanup calls `retriever.delete_document`, a method
`ElasticsearchRetriever` does not define, inside `try/except: pass`:
the `AttributeError` is swallowed and both index entries survive,
still reachable by document id. -/
theorem C4_code_eval :
    "delete_document" ∉ retriever_methods ∧
    reprocess_document fixture_state 1 1 true = Except.ok fixture_reprocessed ∧
    fixture_reprocessed.index_entries = fixture_state.index_entries ∧
    fixture_reprocessed.index_entries ≠ [] ∧
    fixture_reprocessed.chunks = [] ∧
    fixture_reprocessed.docs = [⟨1, 1, "processing", 0, some "/f"⟩] := by
  refine ⟨by decide, rfl, rfl, by decide, rfl, rfl⟩

/-! ## Claim C10 -/

/-- C10: the single-document delete endpoint modifies only the
`Document` row, its `DocumentChunk` rows and the knowledge base's
`document_count` (decremented by one with a floor at zero); the
document's index entries are untouched — the endpoint issues no
Elasticsearch call.  Holds by the frame of `delete_document`. -/
theorem C10_confirmed (st : AppState) (kb_id doc_id : Nat) (st2 : AppState)
    (h : delete_document st kb_id doc_id = Except.ok st2) :
    st2.index_entries = st.index_entries ∧
    (∀ c ∈ st2.chunks, c.document_id ≠ doc_id) ∧
    (∀ c ∈ st.chunks, c.document_id ≠ doc_id → c ∈ st2.chunks) ∧
    (∀ d ∈ st2.docs, ¬ (d.id = doc_id ∧ d.kb_id = kb_id)) ∧
    (∀ d ∈ st.docs, ¬ (d.id = doc_id ∧ d.kb_id = kb_id) → d ∈ st2.docs) ∧
    st2.kbs = st.kbs.map (fun kb =>
      if kb.id = kb_id then { kb with document_count := max 0 (kb.document_count - 1) }
      else kb) ∧
    (∀ kb ∈ st2.kbs, kb.id = kb_id → 0 ≤ kb.document_count) := by
  unfold delete_document at h
  rcases hfind : st.docs.find? (fun d => d.id == doc_id && d.kb_id == kb_id) with
    _ | d
  · rw [hfind] at h; cases h
  · rw [hfind] at h
    injection h with h
    subst h
    refine ⟨rfl, ?_, ?_, ?_, ?_, rfl, ?_⟩
    · intro c hc
      have := (List.mem_filter.mp hc).2
      simpa using this
    · intro c hc hne
      exact List.mem_filter.mpr ⟨hc, by simpa using hne⟩
    · intro d2 hd2
      have h2 : ¬ d2.id = doc_id ∨ ¬ d2.kb_id = kb_id := by
        simpa using (List.mem_filter.mp hd2).2
      intro hcon
      rcases h2 with h3 | h3
      · exact h3 hcon.1
      · exact h3 hcon.2
    · intro d2 hd2 hne
      refine List.mem_filter.mpr ⟨hd2, ?_⟩
      have h2 : ¬ d2.id = doc_id ∨ ¬ d2.kb_id = kb_id := by
        by_cases e1 : d2.id = doc_id
        · exact Or.inr (fun e2 => hne ⟨e1, e2⟩)
        · exact Or.inl e1
      simpa using h2
    · intro kb hkb hid
      rcases List.mem_map.mp hkb with ⟨kb0, _, rfl⟩
      by_cases h0 : kb0.id = kb_id
      · rw [if_pos h0]; exact le_max_left _ _
      · rw [if_neg h0] at hid ⊢
        exact absurd hid h0

/-- C10 witness: the frame property at the concrete fixture state —
in particular the index entries survive the delete unchanged. -/
theorem C10_witness : fixture_deleted.index_entries = fixture_state.index_entries :=
  (C10_confirmed fixture_state 1 1 fixture_deleted rfl).1

end IOKB
